import Mathlib

/-!
# Verification of the product-photo enhancement pipeline (`enhance.js`)

Shallow embedding of the pipeline in `src/enhance.js`:

* the stage sequence executed by `main`;
* the constant background mask built by `createBackgroundMask`;
* the retry loops of `removeBackground` and `callDalleEdit`, including their
  backoff delays and the fallback of `removeBackground`;
* the pre-flight size/format checks of `callDalleEdit`;
* the metadata validation of `validateImagesForDalle`;
* the geometry of `repositionProduct` (bounding box, padded crop, resize,
  centring, bottom offset).

Effectful JavaScript (file IO, HTTP, the `sharp` library) is embedded as
explicit data flow: the outcome of a network attempt is an oracle
`Nat → Bool`, files are symbolic artifact values, and `sharp` operations are
modelled at the pixel/metadata level faithful to the arguments the code
passes them.
-/

namespace Enhance

/-- RGB pixel value of a 3-channel image (each component 0–255). -/
structure RGB where
  r : Nat
  g : Nat
  b : Nat
deriving DecidableEq, Repr

/-- Metadata that `sharp(...).metadata()` reports for an image file:
dimensions, channel count and container format. -/
structure ImageMeta where
  width : Nat
  height : Nat
  channels : Nat
  format : String
deriving DecidableEq, Repr

/-- A decoded raster image as `image.ensureAlpha().raw()` exposes it in
`repositionProduct`: dimensions plus the alpha value at each coordinate
(`data[(y * width + x) * 4 + 3]`). Colour channels are irrelevant to the
claims about geometry and are omitted from the carrier. -/
structure RawImage where
  width : Nat
  height : Nat
  alpha : Nat → Nat → Nat

/-- An image with full RGBA pixel access, used where a claim inspects colour
channels as well as alpha. -/
structure RGBAImage where
  width : Nat
  height : Nat
  px : Nat → Nat → RGB × Nat

/-- A 3-channel mask image as produced by `createBackgroundMask`. -/
structure MaskImage where
  width : Nat
  height : Nat
  channels : Nat
  format : String
  px : Nat → Nat → RGB

/-- `createBackgroundMask` (enhance.js:230–274): starts from a
`sharp({create})` canvas of width 1024, height 1024, 3 channels, white
background, composites an SVG whose `rect` y∈[0,614) is white and whose
`rect` y∈[614,1024) is black, and writes it as PNG. The input image is never
read: only its path appears, in a log line. -/
def createBackgroundMask (_input : RGBAImage) : MaskImage :=
  { width := 1024
    height := 1024
    channels := 3
    format := "png"
    px := fun _x y => if y < 614 then ⟨255, 255, 255⟩ else ⟨0, 0, 0⟩ }

/-! ## The stage sequence of `main` (enhance.js:621–675) -/

/-- The named stages of the pipeline described by the specification. -/
inductive Stage where
  | normalize
  | removeBackgroundStage
  | reposition
  | synthesizeMask
  | inpaint
  | postProcess
deriving DecidableEq, Repr

/-- `path.join(dir, file)` for the concrete arguments `main` uses (a directory
without trailing slash and a plain file name), where it inserts one
separator. -/
def pathJoin (dir file : String) : String := dir ++ "/" ++ file

/-- `OUTPUT_DIR` (enhance.js:9). -/
def OUTPUT_DIR : String := "./output"

/-- The success-path trace of `main` (enhance.js:642–657): the stages it
actually awaits, in order, each with its input artifact and output artifact.
`main` calls `convertToPngAndSquare`, `removeBackground`,
`repositionProduct` and `enhanceImageWithSharp`; it never calls
`createBackgroundMask` or `callDalleEdit` (its step-4 comment reads
"Enhanced image processing without DALL-E"). -/
def mainTrace (inputPath filename : String) : List (Stage × String × String) :=
  [ (.normalize, inputPath, pathJoin OUTPUT_DIR (filename ++ "_input.png")),
    (.removeBackgroundStage, pathJoin OUTPUT_DIR (filename ++ "_input.png"),
      pathJoin OUTPUT_DIR (filename ++ "_no_bg.png")),
    (.reposition, pathJoin OUTPUT_DIR (filename ++ "_no_bg.png"),
      pathJoin OUTPUT_DIR (filename ++ "_repositioned.png")),
    (.postProcess, pathJoin OUTPUT_DIR (filename ++ "_repositioned.png"),
      pathJoin OUTPUT_DIR "ideal-image-result.png") ]

/-- The stage order the specification asserts. -/
def specStages : List Stage :=
  [.normalize, .removeBackgroundStage, .reposition, .synthesizeMask, .inpaint, .postProcess]

/-! ## Retry loops (enhance.js:160–207 and 471–521) -/

/-- Backoff of `removeBackground` before the retry after attempt `n`:
`setTimeout(..., 1000 * attempt)` (enhance.js:203), in milliseconds. -/
def removeBgBackoffMs (n : Nat) : Nat := 1000 * n

/-- Backoff of `callDalleEdit` before the retry after attempt `n`:
`setTimeout(..., 2000 * attempt)` (enhance.js:517), in milliseconds. -/
def dalleBackoffMs (n : Nat) : Nat := 2000 * n

/-- Result of running one of the `for (attempt = 1; attempt <= maxRetries)`
loops: how many attempts ran, the blocking delays incurred between them (in
order, in milliseconds), and whether the last attempt succeeded. -/
structure RetryTrace where
  attempts : Nat
  delays : List Nat
  success : Bool
deriving DecidableEq, Repr

/-- One step of the retry loop, `fuel` bounding the remaining iterations.
`succeeds n` tells whether attempt number `n` succeeds (a successful HTTP
round-trip); on failure with `attempt < maxRetries` the loop sleeps
`backoffMs attempt` and continues. -/
def runRetriesAux (backoffMs : Nat → Nat) (succeeds : Nat → Bool)
    (maxRetries : Nat) : Nat → Nat → List Nat → RetryTrace
  | 0, attempt, delays => ⟨attempt - 1, delays, false⟩
  | fuel + 1, attempt, delays =>
    if succeeds attempt then ⟨attempt, delays, true⟩
    else if attempt < maxRetries then
      runRetriesAux backoffMs succeeds maxRetries fuel (attempt + 1)
        (delays ++ [backoffMs attempt])
    else ⟨attempt, delays, false⟩

/-- The retry loop of `removeBackground`: `maxRetries = 3`, backoff
`1000 * attempt` ms. -/
def removeBgRetry (succeeds : Nat → Bool) : RetryTrace :=
  runRetriesAux removeBgBackoffMs succeeds 3 3 1 []

/-- The retry loop of `callDalleEdit`: `maxRetries = 3`, backoff
`2000 * attempt` ms. -/
def dalleRetry (succeeds : Nat → Bool) : RetryTrace :=
  runRetriesAux dalleBackoffMs succeeds 3 3 1 []

/-- Outcome artifact of `removeBackground`. `api t input` is the remove.bg
response of the successful attempt `t`, re-encoded by
`sharp.ensureAlpha().resize(1024,1024,{fit:contain, transparent}).png()`;
`fallbackContain input` is the input image itself passed through the very
same `sharp` chain (enhance.js:211–218), i.e. background removal as a
no-op. -/
inductive BgOutput where
  | api (attempt : Nat) (input : String)
  | fallbackContain (input : String)
deriving DecidableEq, Repr

/-- Metadata of either `removeBackground` outcome: both branches end in
`resize(1024, 1024, {fit: contain, background: transparent}).png()` after
`ensureAlpha()`, so the written file is a 1024×1024 4-channel PNG. -/
def bgOutputMeta : BgOutput → ImageMeta
  | _ => ⟨1024, 1024, 4, "png"⟩

/-- `removeBackground` (enhance.js:148–227): errors out if the input file is
missing or `REMOVEBG_API_KEY` unset; otherwise runs the retry loop and, when
every attempt failed, does not rethrow `lastError` but writes the fallback
(input padded onto a transparent 1024×1024 canvas) and returns it. -/
def removeBackground (input : String) (fileExists apiKeySet : Bool)
    (succeeds : Nat → Bool) : Except String BgOutput :=
  if !fileExists then .error ("Input file not found: " ++ input)
  else if !apiKeySet then .error "REMOVEBG_API_KEY is not set in environment variables"
  else
    let t := removeBgRetry succeeds
    if t.success then .ok (.api t.attempts input) else .ok (.fallbackContain input)

/-! ## Pre-flight checks of `callDalleEdit` (enhance.js:436–469) -/

/-- How far `callDalleEdit` gets before its first network attempt. -/
inductive DalleCheck where
  | missingFile
  | payloadTooLarge
  | notPng
  | networkCalled
deriving DecidableEq, Repr

/-- `4 * 1024 * 1024` bytes (enhance.js:446), the per-file limit. -/
def dalleSizeLimit : Nat := 4 * 1024 * 1024

/-- The checks `callDalleEdit` performs before its first call to
`openai.images.edit`, in source order: existence of both files, then
`imageStats.size > 4*1024*1024 || maskStats.size > 4*1024*1024`, then the
PNG signature of each buffer. Only if all pass is the network reached. -/
def dallePreflight (imageExists maskExists : Bool) (imageSize maskSize : Nat)
    (imagePng maskPng : Bool) : DalleCheck :=
  if !(imageExists && maskExists) then .missingFile
  else if imageSize > dalleSizeLimit ∨ maskSize > dalleSizeLimit then .payloadTooLarge
  else if !(imagePng && maskPng) then .notPng
  else .networkCalled

/-! ## `validateImagesForDalle` (enhance.js:395–430) -/

/-- `validateImagesForDalle`: throws on the first failing check, in source
order image dimensions, mask dimensions, image format, mask format. The
channel counts are printed to the log but never tested. -/
def validateImagesForDalle (img mask : ImageMeta) : Except String Unit :=
  if img.width ≠ 1024 ∨ img.height ≠ 1024 then
    .error "Image must be 1024x1024"
  else if mask.width ≠ 1024 ∨ mask.height ≠ 1024 then
    .error "Mask must be 1024x1024"
  else if img.format ≠ "png" then
    .error "Image must be PNG format"
  else if mask.format ≠ "png" then
    .error "Mask must be PNG format"
  else .ok ()

/-! ## Geometry of `repositionProduct` (enhance.js:277–393) -/

/-- The bounding-box accumulator `(minX, maxX, minY, maxY)` as the code keeps
it, over `Int` so that the sentinel values `maxX = -1`, `maxY = -1` are
representable. -/
abbrev BBoxAcc := Int × Int × Int × Int

/-- One body execution of the double loop of `repositionProduct`
(enhance.js:288–298): the accumulator is updated only at pixels whose alpha
exceeds 50. The pair carries `(y, x)` in loop order. -/
def bboxStep (img : RawImage) (st : BBoxAcc) (yx : Nat × Nat) : BBoxAcc :=
  if img.alpha yx.2 yx.1 > 50 then
    (min st.1 yx.2, max st.2.1 yx.2, min st.2.2.1 yx.1, max st.2.2.2 yx.1)
  else st

/-- The scan order of the double loop: `y` outer over `[0, height)`, `x`
inner over `[0, width)`. -/
def scanOrder (img : RawImage) : List (Nat × Nat) :=
  (List.range img.height).flatMap fun y => (List.range img.width).map fun x => (y, x)

/-- The bounding box of the pixels with alpha above 50, starting from the
initialiser `minX = width, maxX = -1, minY = height, maxY = -1`
(enhance.js:286). -/
def computeBBox (img : RawImage) : BBoxAcc :=
  (scanOrder img).foldl (bboxStep img) ((img.width : Int), -1, (img.height : Int), -1)

/-- The sentinel check of enhance.js:301: when no opaque pixel was found the
whole image is used (`minX = 0, maxX = width-1, minY = 0, maxY = height-1`). -/
def effectiveBBox (img : RawImage) : BBoxAcc :=
  let b := computeBBox img
  if b.2.1 = -1 ∨ b.2.2.2 = -1 then
    (0, (img.width : Int) - 1, 0, (img.height : Int) - 1)
  else b

/-- The fixed crop padding (enhance.js:308). -/
def cropPadding : Int := 10

/-- The rectangle handed to `sharp.extract`. -/
structure CropRect where
  left : Int
  top : Int
  width : Int
  height : Int
deriving DecidableEq, Repr

/-- The padded, clamped crop rectangle of enhance.js:309–312 for a bounding
box `(minX, maxX, minY, maxY)` inside a `w × h` image:
`cropLeft = max(0, minX - padding)`, `cropTop = max(0, minY - padding)`,
`cropWidth = min(w - cropLeft, maxX - minX + 1 + padding*2)`,
`cropHeight = min(h - cropTop, maxY - minY + 1 + padding*2)`. -/
def cropRectOfBox (w h : Int) (box : BBoxAcc) : CropRect :=
  let cropLeft := max 0 (box.1 - cropPadding)
  let cropTop := max 0 (box.2.2.1 - cropPadding)
  let cropWidth := min (w - cropLeft) (box.2.1 - box.1 + 1 + cropPadding * 2)
  let cropHeight := min (h - cropTop) (box.2.2.2 - box.2.2.1 + 1 + cropPadding * 2)
  ⟨cropLeft, cropTop, cropWidth, cropHeight⟩

/-- The crop rectangle `repositionProduct` computes for an image: the padded
clamp applied to the effective bounding box. -/
def cropRect (img : RawImage) : CropRect :=
  cropRectOfBox (img.width : Int) (img.height : Int) (effectiveBBox img)

/-- `canvasWidth` (enhance.js:326). -/
def canvasWidth : Nat := 1024

/-- `canvasHeight` (enhance.js:327). -/
def canvasHeight : Nat := 1024

/-- `Math.floor(canvasWidth * 0.7)` (enhance.js:328). In IEEE doubles
`1024 * 0.7 = 716.79999999999995…`, in exact arithmetic `716.8`; both floor
to the same integer. -/
def maxWidth : ℤ := ⌊(1024 : ℚ) * (7 / 10)⌋

/-- `Math.floor(canvasHeight * 0.6)` (enhance.js:329). In IEEE doubles
`1024 * 0.6 = 614.39999999999997…`, in exact arithmetic `614.4`; both floor
to the same integer. -/
def maxHeight : ℤ := ⌊(1024 : ℚ) * (6 / 10)⌋

/-- Model of the `sharp` library call
`resize(maxWidth, maxHeight, {fit: inside, withoutEnlargement: true})`
(enhance.js:337–343): both dimensions are scaled by the single factor
`min(1, 716/w, 614/h)` and rounded down to whole pixels. (`sharp` is a
third-party library, not repository code; the claims proved about it depend
only on the common factor being at most `1`, `716/w` and `614/h`, which any
rounding of a fit-inside resize satisfies.) -/
def fitInside (cw ch : Nat) : Nat × Nat :=
  let f : ℚ := min 1 (min ((716 : ℚ) / cw) ((614 : ℚ) / ch))
  (⌊f * cw⌋.toNat, ⌊f * ch⌋.toNat)

/-- The conditional resize of enhance.js:335–344: the crop is resized only
when it exceeds `maxWidth` or `maxHeight`, otherwise kept as is. -/
def resizeStep (cw ch : Nat) : Nat × Nat :=
  if 716 < cw ∨ 614 < ch then fitInside cw ch else (cw, ch)

/-- `Math.floor((canvasWidth - finalWidth) / 2)` (enhance.js:353). For
`0 ≤ w ≤ 1024` the quotient is exact in doubles and its floor is natural
floor division. -/
def repoLeft (w : Nat) : Nat := (1024 - w) / 2

/-- `Math.floor(canvasHeight - finalHeight - canvasHeight * 0.15)`
(enhance.js:354), in exact rational arithmetic: `1024 * 0.15 = 153.6`, and
the IEEE double for it (`153.60000000000002…`) has the same floor after the
subtraction, for every whole `finalHeight`. -/
def repoTop (h : Nat) : ℤ := ⌊(1024 : ℚ) - h - 1024 * (15 / 100)⌋

/-! ## Claim statements taken verbatim from the specification

These `Prop`s state spec claims that the code refutes; each is settled by a
negation theorem below. -/

/-- The mask behaviour asserted by claim C2 (from the spec's
`synthesizeMaskFromAlpha`): same dimensions as the input, and a pixel is
white exactly when the source alpha is below 128. -/
def maskClaimC2 : Prop :=
  ∀ img : RGBAImage,
    ((createBackgroundMask img).width = img.width ∧
      (createBackgroundMask img).height = img.height) ∧
    ∀ x y, x < img.width → y < img.height →
      ((createBackgroundMask img).px x y = ⟨255, 255, 255⟩ ↔ (img.px x y).2 < 128)

/-- The stage sequence asserted by claim C1: every invocation of `main` runs
exactly the six spec stages in order, each consuming the previous output. -/
def pipelineClaimC1 : Prop :=
  ∀ inputPath filename : String,
    (mainTrace inputPath filename).map Prod.fst = specStages ∧
    List.Chain' (fun a b => b.2.1 = a.2.2) (mainTrace inputPath filename)

/-- The pre-flight behaviour asserted by claim C4: any image/mask pair whose
sizes sum to more than 4 MiB is rejected before the network. -/
def payloadClaimC4 : Prop :=
  ∀ imageSize maskSize : Nat, dalleSizeLimit < imageSize + maskSize →
    dallePreflight true true imageSize maskSize true true = .payloadTooLarge

/-- The validation behaviour asserted by claim C6: every pair violating the
1024×1024 / PNG / 4-channel conditions is rejected. -/
def validateClaimC6 : Prop :=
  ∀ img mask : ImageMeta,
    ¬(img.width = 1024 ∧ img.height = 1024 ∧ mask.width = 1024 ∧ mask.height = 1024 ∧
        img.format = "png" ∧ mask.format = "png" ∧ img.channels = 4 ∧ mask.channels = 4) →
    validateImagesForDalle img mask ≠ .ok ()

end Enhance

namespace Enhance

/-! ## C10 — the mask is a constant image -/

/-- Claim C10: the mask built by `createBackgroundMask` is independent of the
input image — any two inputs yield identical masks — and is the constant
1024×1024 three-channel PNG whose rows below 614 are white and whose rows
from 614 on are black. -/
theorem c10_mask_independent_of_input :
    (∀ i1 i2 : RGBAImage, createBackgroundMask i1 = createBackgroundMask i2) ∧
    ∀ img : RGBAImage,
      (createBackgroundMask img).width = 1024 ∧
      (createBackgroundMask img).height = 1024 ∧
      (createBackgroundMask img).channels = 3 ∧
      (createBackgroundMask img).format = "png" ∧
      ∀ x y, (createBackgroundMask img).px x y =
        if y < 614 then ⟨255, 255, 255⟩ else ⟨0, 0, 0⟩ :=
  ⟨fun _ _ => rfl, fun _ => ⟨rfl, rfl, rfl, rfl, fun _ _ => rfl⟩⟩

/-! ## C2 — the mask is not a pointwise function of the alpha channel -/

/-- Claim C2 is false: on the fully opaque 1024×1024 image every alpha value
is 255, so the claimed mask would be all black, yet `createBackgroundMask`
makes pixel (0,0) white. -/
theorem c2_counterexample : ¬ maskClaimC2 := by
  intro h
  have h2 := (h ⟨1024, 1024, fun _ _ => (⟨0, 0, 0⟩, 255)⟩).2 0 0 (by norm_num) (by norm_num)
  simp [createBackgroundMask] at h2

/-- Claim C2 amended: `createBackgroundMask` ignores the input image's pixels
and dimensions; it always produces the fixed 1024×1024 three-channel mask
whose pixel at (x, y) is white for y < 614 and black otherwise, and no
invert flag exists. -/
theorem c2_mask_fixed_bands (img : RGBAImage) :
    (createBackgroundMask img).width = 1024 ∧
    (createBackgroundMask img).height = 1024 ∧
    (createBackgroundMask img).channels = 3 ∧
    ∀ x y, (createBackgroundMask img).px x y =
      if y < 614 then ⟨255, 255, 255⟩ else ⟨0, 0, 0⟩ :=
  ⟨rfl, rfl, rfl, fun _ _ => rfl⟩

/-! ## C1 — the stages `main` actually runs -/

/-- Claim C1 is false: the stage list of `main` has four stages, not the six
the spec asserts; in particular mask synthesis and inpainting never run. -/
theorem c1_counterexample : ¬ pipelineClaimC1 := by
  intro h
  have h1 := (h "in.png" "img").1
  simp [mainTrace, specStages] at h1

/-- Claim C1 amended: a single invocation of `main` executes exactly
normalize, then remove background, then reposition, then post-process, in
that order, each stage consuming the previous stage's output artifact; the
synthesize-mask and inpaint stages are never executed. -/
theorem c1_pipeline_stages (inputPath filename : String) :
    (mainTrace inputPath filename).map Prod.fst =
      [.normalize, .removeBackgroundStage, .reposition, .postProcess] ∧
    List.Chain' (fun a b => b.2.1 = a.2.2) (mainTrace inputPath filename) ∧
    Stage.synthesizeMask ∉ (mainTrace inputPath filename).map Prod.fst ∧
    Stage.inpaint ∉ (mainTrace inputPath filename).map Prod.fst := by
  refine ⟨rfl, ?_, by simp [mainTrace], by simp [mainTrace]⟩
  simp [mainTrace, List.chain'_cons]

/-! ## C4 — the 4 MiB limit is per file, not combined -/

/-- Claim C4 is false: a 3 MiB image with a 2 MiB mask sums to 5 MiB, above
the limit, yet the pre-flight check lets the request through. -/
theorem c4_counterexample : ¬ payloadClaimC4 := by
  intro h
  have h5 := h 3145728 2097152 (by norm_num [dalleSizeLimit])
  simp [dallePreflight, dalleSizeLimit] at h5

/-- Claim C4 amended: before any network call, `callDalleEdit` rejects with
the payload-size error exactly when the image alone or the mask alone
exceeds 4 MiB (given both files exist); the network is reached only when
both files are individually within the limit and PNG-encoded. -/
theorem c4_per_file_limit (imageExists maskExists imagePng maskPng : Bool)
    (imageSize maskSize : Nat) :
    (dallePreflight imageExists maskExists imageSize maskSize imagePng maskPng =
        .payloadTooLarge ↔
      imageExists = true ∧ maskExists = true ∧
        (dalleSizeLimit < imageSize ∨ dalleSizeLimit < maskSize)) ∧
    (dallePreflight imageExists maskExists imageSize maskSize imagePng maskPng =
        .networkCalled ↔
      imageExists = true ∧ maskExists = true ∧
        imageSize ≤ dalleSizeLimit ∧ maskSize ≤ dalleSizeLimit ∧
        imagePng = true ∧ maskPng = true) := by
  unfold dallePreflight
  cases imageExists <;> cases maskExists <;> cases imagePng <;> cases maskPng <;>
    split_ifs <;> simp_all <;> omega

/-! ## C3 — the two adapters do not share one backoff schedule -/

/-- Claim C3 is false: when every attempt fails, `callDalleEdit` sleeps
2000 ms and then 4000 ms between its three attempts — twice the
1-second-times-attempt schedule the claim asserts for both adapters (and
the schedule `removeBackground` really uses). -/
theorem c3_counterexample :
    (dalleRetry (fun _ => false)).delays = [2000, 4000] ∧
    (dalleRetry (fun _ => false)).delays ≠ [removeBgBackoffMs 1, removeBgBackoffMs 2] ∧
    (removeBgRetry (fun _ => false)).delays = [removeBgBackoffMs 1, removeBgBackoffMs 2] := by
  refine ⟨rfl, ?_, rfl⟩
  decide

/-- Claim C3 amended: both adapters make at most 3 attempts and sleep
between consecutive attempts, the delay after failed attempt `n` being
`1000 * n` ms for the background-removal adapter but `2000 * n` ms for the
inpaint adapter; in both loops the delays are exactly the backoff schedule
applied to attempts `1 .. attempts - 1`. -/
theorem c3_retry_policy (succeeds : Nat → Bool) :
    1 ≤ (removeBgRetry succeeds).attempts ∧ (removeBgRetry succeeds).attempts ≤ 3 ∧
    1 ≤ (dalleRetry succeeds).attempts ∧ (dalleRetry succeeds).attempts ≤ 3 ∧
    (removeBgRetry succeeds).delays =
      (List.range ((removeBgRetry succeeds).attempts - 1)).map
        (fun i => removeBgBackoffMs (i + 1)) ∧
    (dalleRetry succeeds).delays =
      (List.range ((dalleRetry succeeds).attempts - 1)).map
        (fun i => dalleBackoffMs (i + 1)) := by
  cases h1 : succeeds 1 <;> cases h2 : succeeds 2 <;> cases h3 : succeeds 3 <;>
    simp [removeBgRetry, dalleRetry, runRetriesAux, h1, h2, h3,
      removeBgBackoffMs, dalleBackoffMs, List.range_succ]

/-! ## C5 — exhausted retries degrade to a transparent-canvas no-op -/

/-- Claim C5: when all three attempts of the background-removal adapter
fail, `removeBackground` does not abort: it returns (`Except.ok`) the input
image passed through the same transparent-canvas 1024×1024 contain-fit used
everywhere else, so downstream stages receive a degraded but well-formed
1024×1024 RGBA PNG artifact. -/
theorem c5_fallback_on_exhausted_retries (input : String) (succeeds : Nat → Bool)
    (h1 : succeeds 1 = false) (h2 : succeeds 2 = false) (h3 : succeeds 3 = false) :
    removeBackground input true true succeeds = .ok (.fallbackContain input) ∧
    bgOutputMeta (.fallbackContain input) = ⟨1024, 1024, 4, "png"⟩ := by
  refine ⟨?_, rfl⟩
  simp [removeBackground, removeBgRetry, runRetriesAux, h1, h2, h3]

/-- Witness for C5: a concrete run in which every attempt fails. -/
theorem c5_witness :
    removeBackground "product.png" true true (fun _ => false) =
      .ok (.fallbackContain "product.png") ∧
    bgOutputMeta (.fallbackContain "product.png") = ⟨1024, 1024, 4, "png"⟩ :=
  c5_fallback_on_exhausted_retries "product.png" (fun _ => false) rfl rfl rfl

/-! ## C6 — validation never looks at the channel count -/

/-- Claim C6 is false: a 1024×1024 PNG pair whose buffers carry only three
channels violates the claimed RGBA condition, yet `validateImagesForDalle`
accepts it. -/
theorem c6_counterexample : ¬ validateClaimC6 := by
  intro h
  exact h ⟨1024, 1024, 3, "png"⟩ ⟨1024, 1024, 3, "png"⟩ (by simp) rfl

/-- Claim C6 amended: `validateImagesForDalle` accepts exactly the pairs in
which image and mask are both 1024×1024 and PNG-encoded; the channel count
is logged but never checked. -/
theorem c6_checks_dims_and_format (img mask : ImageMeta) :
    validateImagesForDalle img mask = .ok () ↔
      img.width = 1024 ∧ img.height = 1024 ∧ mask.width = 1024 ∧ mask.height = 1024 ∧
        img.format = "png" ∧ mask.format = "png" := by
  unfold validateImagesForDalle
  split_ifs <;> simp_all <;> tauto

/-! ## C8 — all-transparent images yield the sentinel and a whole-image crop -/

/-- A fold whose step fixes every list element leaves the initial value
unchanged. -/
theorem foldl_of_step_fixed {α β : Type _} (f : β → α → β) (l : List α) (b : β)
    (h : ∀ st a, a ∈ l → f st a = st) : l.foldl f b = b := by
  induction l generalizing b with
  | nil => rfl
  | cons x xs ih =>
    rw [List.foldl_cons, h b x (List.mem_cons_self x xs)]
    exact ih b fun st a ha => h st a (List.mem_cons_of_mem _ ha)

/-- Every pair visited by the scan loop is inside the image bounds. -/
theorem mem_scanOrder {img : RawImage} {y x : Nat}
    (h : (y, x) ∈ scanOrder img) : y < img.height ∧ x < img.width := by
  simp only [scanOrder, List.mem_flatMap, List.mem_map, List.mem_range] at h
  obtain ⟨y', hy', x', hx', heq⟩ := h
  cases heq
  exact ⟨hy', hx'⟩

/-- Claim C8: on an image in which no pixel's alpha exceeds the threshold
50, the bounding-box scan returns the sentinel initialiser (in particular
`maxX = -1` and `maxY = -1`), and `repositionProduct` then crops the whole
image: offset (0,0) with the full width and height. -/
theorem c8_all_transparent_whole_image (img : RawImage)
    (htrans : ∀ x y, x < img.width → y < img.height → img.alpha x y ≤ 50) :
    computeBBox img = ((img.width : Int), -1, (img.height : Int), -1) ∧
    cropRect img = ⟨0, 0, (img.width : Int), (img.height : Int)⟩ := by
  have hbb : computeBBox img = ((img.width : Int), -1, (img.height : Int), -1) := by
    refine foldl_of_step_fixed _ _ _ fun st a ha => ?_
    have hmem : (a.1, a.2) ∈ scanOrder img := by
      rwa [Prod.mk.eta]
    obtain ⟨hy, hx⟩ := mem_scanOrder hmem
    have hle : ¬ img.alpha a.2 a.1 > 50 := not_lt.mpr (htrans _ _ hx hy)
    simp [bboxStep, hle]
  refine ⟨hbb, ?_⟩
  have heff : effectiveBBox img = (0, (img.width : Int) - 1, 0, (img.height : Int) - 1) := by
    simp [effectiveBBox, hbb]
  have hw : (0 : Int) ≤ (img.width : Int) := Int.natCast_nonneg _
  have hh : (0 : Int) ≤ (img.height : Int) := Int.natCast_nonneg _
  simp only [cropRect, heff, cropRectOfBox, cropPadding, CropRect.mk.injEq]
  refine ⟨by omega, by omega, by omega, by omega⟩

/-- Witness for C8: the 2×2 fully transparent image. -/
theorem c8_witness :
    computeBBox ⟨2, 2, fun _ _ => 0⟩ = ((2 : Int), -1, (2 : Int), -1) ∧
    cropRect ⟨2, 2, fun _ _ => 0⟩ = ⟨0, 0, (2 : Int), (2 : Int)⟩ :=
  c8_all_transparent_whole_image ⟨2, 2, fun _ _ => 0⟩ fun _ _ _ _ => Nat.zero_le 50

/-! ## C9 — the padded crop rectangle is clamped to the image -/

/-- Claim C9: for any image dimensions and any non-empty bounding box lying
inside them, the padded crop rectangle is clamped to the image: offsets are
non-negative, `left + width` stays within the image width and
`top + height` within the image height (and both extents are positive), so
`sharp.extract` never receives an out-of-bounds region. -/
theorem c9_crop_rect_clamped (w h minX maxX minY maxY : Int)
    (hx0 : 0 ≤ minX) (hx1 : minX ≤ maxX) (hx2 : maxX < w)
    (hy0 : 0 ≤ minY) (hy1 : minY ≤ maxY) (hy2 : maxY < h) :
    0 ≤ (cropRectOfBox w h (minX, maxX, minY, maxY)).left ∧
    0 ≤ (cropRectOfBox w h (minX, maxX, minY, maxY)).top ∧
    (cropRectOfBox w h (minX, maxX, minY, maxY)).left +
      (cropRectOfBox w h (minX, maxX, minY, maxY)).width ≤ w ∧
    (cropRectOfBox w h (minX, maxX, minY, maxY)).top +
      (cropRectOfBox w h (minX, maxX, minY, maxY)).height ≤ h ∧
    0 < (cropRectOfBox w h (minX, maxX, minY, maxY)).width ∧
    0 < (cropRectOfBox w h (minX, maxX, minY, maxY)).height := by
  simp only [cropRectOfBox, cropPadding]
  refine ⟨by omega, by omega, by omega, by omega, by omega, by omega⟩

/-- Witness for C9: a 100×80 image with bounding box x ∈ [5, 20],
y ∈ [7, 30]. -/
theorem c9_witness :
    0 ≤ (cropRectOfBox 100 80 (5, 20, 7, 30)).left ∧
    0 ≤ (cropRectOfBox 100 80 (5, 20, 7, 30)).top ∧
    (cropRectOfBox 100 80 (5, 20, 7, 30)).left +
      (cropRectOfBox 100 80 (5, 20, 7, 30)).width ≤ 100 ∧
    (cropRectOfBox 100 80 (5, 20, 7, 30)).top +
      (cropRectOfBox 100 80 (5, 20, 7, 30)).height ≤ 80 ∧
    0 < (cropRectOfBox 100 80 (5, 20, 7, 30)).width ∧
    0 < (cropRectOfBox 100 80 (5, 20, 7, 30)).height :=
  c9_crop_rect_clamped 100 80 5 20 7 30 (by norm_num) (by norm_num) (by norm_num)
    (by norm_num) (by norm_num) (by norm_num)

/-! ## C7 — resize bounds and final placement -/

/-- `Math.floor(canvasWidth * 0.7)` evaluates to 716. -/
theorem maxWidth_eq : maxWidth = 716 := by
  unfold maxWidth
  rw [Int.floor_eq_iff] <;> norm_num

/-- `Math.floor(canvasHeight * 0.6)` evaluates to 614. -/
theorem maxHeight_eq : maxHeight = 614 := by
  unfold maxHeight
  rw [Int.floor_eq_iff] <;> norm_num

/-- The vertical placement always puts the product's bottom edge at row 870:
`Math.floor(1024 - h - 153.6) = 870 - h` for every whole height `h`. -/
theorem repoTop_eq (h : Nat) : repoTop h = 870 - (h : ℤ) := by
  unfold repoTop
  rw [Int.floor_eq_iff]
  constructor
  · push_cast
    linarith
  · push_cast
    linarith

/-- The modelled fit-inside resize: output within the 716×614 box, never
enlarged, and both axes scaled by one common factor `f ≤ 1` up to the pixel
rounding. -/
theorem fitInside_spec (cw ch : Nat) (hcw : 1 ≤ cw) (hch : 1 ≤ ch) :
    (fitInside cw ch).1 ≤ 716 ∧ (fitInside cw ch).2 ≤ 614 ∧
    (fitInside cw ch).1 ≤ cw ∧ (fitInside cw ch).2 ≤ ch ∧
    ∃ f : ℚ, 0 ≤ f ∧ f ≤ 1 ∧
      ((fitInside cw ch).1 : ℚ) ≤ f * cw ∧ f * cw < (fitInside cw ch).1 + 1 ∧
      ((fitInside cw ch).2 : ℚ) ≤ f * ch ∧ f * ch < (fitInside cw ch).2 + 1 := by
  have hcwQ : (0 : ℚ) < (cw : ℚ) := by exact_mod_cast hcw
  have hchQ : (0 : ℚ) < (ch : ℚ) := by exact_mod_cast hch
  simp only [fitInside]
  set f : ℚ := min 1 (min ((716 : ℚ) / cw) ((614 : ℚ) / ch)) with hfdef
  have hf0 : 0 ≤ f :=
    le_min (by norm_num)
      (le_min (div_nonneg (by norm_num) hcwQ.le) (div_nonneg (by norm_num) hchQ.le))
  have hf1 : f ≤ 1 := min_le_left _ _
  have hfw716 : f * cw ≤ 716 := by
    have hle : f ≤ 716 / cw := le_trans (min_le_right _ _) (min_le_left _ _)
    calc f * cw ≤ (716 / cw) * cw := mul_le_mul_of_nonneg_right hle hcwQ.le
    _ = 716 := div_mul_cancel₀ _ (ne_of_gt hcwQ)
  have hfh614 : f * ch ≤ 614 := by
    have hle : f ≤ 614 / ch := le_trans (min_le_right _ _) (min_le_right _ _)
    calc f * ch ≤ (614 / ch) * ch := mul_le_mul_of_nonneg_right hle hchQ.le
    _ = 614 := div_mul_cancel₀ _ (ne_of_gt hchQ)
  have hfwcw : f * cw ≤ cw := by
    calc f * cw ≤ 1 * cw := mul_le_mul_of_nonneg_right hf1 hcwQ.le
    _ = cw := one_mul _
  have hfhch : f * ch ≤ ch := by
    calc f * ch ≤ 1 * ch := mul_le_mul_of_nonneg_right hf1 hchQ.le
    _ = ch := one_mul _
  have hw0 : (0 : ℤ) ≤ ⌊f * (cw : ℚ)⌋ := Int.floor_nonneg.mpr (mul_nonneg hf0 hcwQ.le)
  have hh0 : (0 : ℤ) ≤ ⌊f * (ch : ℚ)⌋ := Int.floor_nonneg.mpr (mul_nonneg hf0 hchQ.le)
  have hwcast : ((⌊f * (cw : ℚ)⌋.toNat : ℤ)) = ⌊f * (cw : ℚ)⌋ := Int.toNat_of_nonneg hw0
  have hhcast : ((⌊f * (ch : ℚ)⌋.toNat : ℤ)) = ⌊f * (ch : ℚ)⌋ := Int.toNat_of_nonneg hh0
  have hwcastQ : ((⌊f * (cw : ℚ)⌋.toNat : ℚ)) = ((⌊f * (cw : ℚ)⌋ : ℤ) : ℚ) := by
    exact_mod_cast hwcast
  have hhcastQ : ((⌊f * (ch : ℚ)⌋.toNat : ℚ)) = ((⌊f * (ch : ℚ)⌋ : ℤ) : ℚ) := by
    exact_mod_cast hhcast
  refine ⟨?_, ?_, ?_, ?_, f, hf0, hf1, ?_, ?_, ?_, ?_⟩
  · rw [Int.toNat_le]
    have := Int.floor_mono hfw716
    simpa using this
  · rw [Int.toNat_le]
    have := Int.floor_mono hfh614
    simpa using this
  · rw [Int.toNat_le]
    have := Int.floor_mono hfwcw
    simpa using this
  · rw [Int.toNat_le]
    have := Int.floor_mono hfhch
    simpa using this
  · rw [hwcastQ]
    exact Int.floor_le _
  · rw [hwcastQ]
    exact Int.lt_floor_add_one _
  · rw [hhcastQ]
    exact Int.floor_le _
  · rw [hhcastQ]
    exact Int.lt_floor_add_one _

/-- Claim C7 is false on its vertical-placement clause: for the reachable
final height 100 (a 500×100 crop is left unresized), the product's bottom
edge sits 154 pixels above the canvas bottom, and 154 exceeds 15 % of the
1024-pixel canvas height (153.6). -/
theorem c7_counterexample :
    resizeStep 500 100 = (500, 100) ∧
    repoTop 100 = 770 ∧
    (1024 : ℤ) - (repoTop 100 + 100) = 154 ∧
    ¬ ((154 : ℚ) ≤ 1024 * (15 / 100)) := by
  have h770 : repoTop 100 = 770 := by
    rw [repoTop_eq]
    norm_num
  refine ⟨?_, h770, by rw [h770]; norm_num, by norm_num⟩
  norm_num [resizeStep]

/-- Claim C7 amended: the reposition stage crops the bounding box with the
fixed padding 10, never enlarges the crop and keeps it within 716×614
pixels (716 and 614 are within 70 % of the canvas width and 60 % of the
canvas height respectively), scaling both axes by one common factor; the
result is composited horizontally centred (left and right margins differ by
at most one pixel), with its bottom edge exactly 154 pixels — about 15.04 %
of the canvas height, just above the spec's 15 % — above the canvas bottom
edge. -/
theorem c7_reposition_geometry (cw ch : Nat) (hcw : 1 ≤ cw) (hch : 1 ≤ ch) :
    (resizeStep cw ch).1 ≤ 716 ∧ (resizeStep cw ch).2 ≤ 614 ∧
    (resizeStep cw ch).1 ≤ cw ∧ (resizeStep cw ch).2 ≤ ch ∧
    ((716 : ℚ) ≤ 1024 * (7 / 10) ∧ (614 : ℚ) ≤ 1024 * (6 / 10)) ∧
    (∃ f : ℚ, 0 ≤ f ∧ f ≤ 1 ∧
      ((resizeStep cw ch).1 : ℚ) ≤ f * cw ∧ f * cw < (resizeStep cw ch).1 + 1 ∧
      ((resizeStep cw ch).2 : ℚ) ≤ f * ch ∧ f * ch < (resizeStep cw ch).2 + 1) ∧
    repoLeft (resizeStep cw ch).1 ≤
      1024 - (resizeStep cw ch).1 - repoLeft (resizeStep cw ch).1 ∧
    1024 - (resizeStep cw ch).1 - repoLeft (resizeStep cw ch).1 ≤
      repoLeft (resizeStep cw ch).1 + 1 ∧
    (1024 : ℤ) - (repoTop (resizeStep cw ch).2 + (resizeStep cw ch).2) = 154 ∧
    cropPadding = 10 := by
  have hmain : (resizeStep cw ch).1 ≤ 716 ∧ (resizeStep cw ch).2 ≤ 614 ∧
      (resizeStep cw ch).1 ≤ cw ∧ (resizeStep cw ch).2 ≤ ch ∧
      ∃ f : ℚ, 0 ≤ f ∧ f ≤ 1 ∧
        ((resizeStep cw ch).1 : ℚ) ≤ f * cw ∧ f * cw < (resizeStep cw ch).1 + 1 ∧
        ((resizeStep cw ch).2 : ℚ) ≤ f * ch ∧ f * ch < (resizeStep cw ch).2 + 1 := by
    unfold resizeStep
    split_ifs with hcond
    · exact fitInside_spec cw ch hcw hch
    · push_neg at hcond
      refine ⟨hcond.1, hcond.2, le_refl _, le_refl _, 1, by norm_num, le_refl 1,
        ?_, ?_, ?_, ?_⟩ <;> simp
  obtain ⟨hw716, hh614, hwcw, hhch, hex⟩ := hmain
  refine ⟨hw716, hh614, hwcw, hhch, ⟨by norm_num, by norm_num⟩, hex, ?_, ?_, ?_, rfl⟩
  · unfold repoLeft
    omega
  · unfold repoLeft
    omega
  · rw [repoTop_eq]
    ring

/-- Witness for C7: a crop of 800×200 pixels. -/
theorem c7_witness :
    (1 ≤ 800 ∧ 1 ≤ 200) ∧
    ((resizeStep 800 200).1 ≤ 716 ∧ (resizeStep 800 200).2 ≤ 614 ∧
    (resizeStep 800 200).1 ≤ 800 ∧ (resizeStep 800 200).2 ≤ 200 ∧
    ((716 : ℚ) ≤ 1024 * (7 / 10) ∧ (614 : ℚ) ≤ 1024 * (6 / 10)) ∧
    (∃ f : ℚ, 0 ≤ f ∧ f ≤ 1 ∧
      ((resizeStep 800 200).1 : ℚ) ≤ f * 800 ∧ f * 800 < (resizeStep 800 200).1 + 1 ∧
      ((resizeStep 800 200).2 : ℚ) ≤ f * 200 ∧ f * 200 < (resizeStep 800 200).2 + 1) ∧
    repoLeft (resizeStep 800 200).1 ≤
      1024 - (resizeStep 800 200).1 - repoLeft (resizeStep 800 200).1 ∧
    1024 - (resizeStep 800 200).1 - repoLeft (resizeStep 800 200).1 ≤
      repoLeft (resizeStep 800 200).1 + 1 ∧
    (1024 : ℤ) - (repoTop (resizeStep 800 200).2 + (resizeStep 800 200).2) = 154 ∧
    cropPadding = 10) :=
  ⟨⟨by norm_num, by norm_num⟩, c7_reposition_geometry 800 200 (by norm_num) (by norm_num)⟩

end Enhance
